import Mathlib

/-!
Verification of the `discord` package of the Mutterblack repository
(src/unnamed/part_000, package `discord`): a multi-shard client façade over
the discordgo gateway library.  The Go source is shallowly embedded below:

* pure data (users, roles, members, channels, guilds) becomes Lean structures;
* each discordgo per-shard `State` cache is modelled as association lists
  (the cache contents are external library state, referenced at the boundary);
* the mutable memoization fields `Nick`/`Content` of `DiscordMessage` become
  `Option String` fields, and the accessor methods become explicit
  state-passing functions returning the value together with the updated
  message;
* outbound transport calls (`ChannelMessageSend`, `ChannelMessageSendEmbed`,
  `ChannelFileSend`) are recorded as an explicit call list, with a `Transport`
  oracle deciding whether each call errors; a returned `Bool` models whether
  the Go function returned a non-nil error.
-/

namespace Mutterblack

/-- Embeds `discordgo.User` (the fields the repository reads): ID, Username, Avatar,
Bot. -/
structure User where
  id : String
  username : String
  avatar : String
  bot : Bool
deriving DecidableEq

/-- Embeds `discordgo.Role` (fields read: ID, Name). -/
structure Role where
  id : String
  name : String
deriving DecidableEq

/-- Embeds `discordgo.Member` (fields read: User.ID, Nick). -/
structure Member where
  user : User
  nick : String
deriving DecidableEq

/-- Embeds `discordgo.Channel` (fields read: ID, Name, GuildID, Type). -/
structure Channel where
  id : String
  name : String
  guildID : String
deriving DecidableEq

/-- Embeds `discordgo.Guild` (fields read: ID, OwnerID, Roles, Members). -/
structure Guild where
  id : String
  ownerID : String
  roles : List Role
  members : List Member
deriving DecidableEq

/-- Embeds `MessageType` with its three constants `MessageTypeCreate`,
`MessageTypeUpdate`, `MessageTypeDelete` (source lines 13-22). -/
inductive MessageType where
  | create
  | update
  | delete
deriving DecidableEq

/-- Embeds `discordgo.Message` (fields the repository reads: ID, ChannelID, Content,
Author, Mentions).  `Author` is a nullable pointer in Go, hence `Option`. -/
structure DgoMessage where
  id : String
  channelID : String
  content : String
  author : Option User
  mentions : List User
deriving DecidableEq

/-- Embeds `DiscordMessage` (source lines 38-44).  The Go struct also carries a
`*Discord` back-pointer; in the embedding the `Discord` state is passed to
each accessor explicitly, standing for dereferencing that pointer at call
time.  `nick` and `content` are the two lazily-memoized cache fields
(`Nick *string`, `Content *string`). -/
structure DiscordMessage where
  dgoMessage : DgoMessage
  messageType : MessageType
  nick : Option String
  content : Option String
deriving DecidableEq

/-- One shard's `discordgo.Session.State`: the read-only per-shard caches the
repository consults (`State.Channel`, `State.Guild`,
`State.UserChannelPermissions`, `State.UserColor`, `State.User`).  The
permission and color computations of discordgo are external library code, so
they are modelled at the boundary as cached key/value lookups. -/
structure ShardState where
  channels : List Channel
  guilds : List Guild
  perms : List ((String × String) × Int)
  colors : List ((String × String) × Int)
  stateUser : Option User
deriving DecidableEq

/-- The `Discord` struct (source lines 106-114): `sessions` is the `Sessions`
slice (index = shard ID); `session` is the distinguished `Session` field,
which `Open()` sets to `Sessions[0]` (line 229). -/
structure Discord where
  session : ShardState
  sessions : List ShardState
  ownerUserID : String
deriving DecidableEq

/-- Embeds `s.State.Channel(channelID)`: cache hit = `some`, miss = `none`
(discordgo returns `ErrStateNotFound` on a miss). -/
def shardChannel (s : ShardState) (channelID : String) : Option Channel :=
  s.channels.find? (fun c => c.id == channelID)

/-- Embeds `s.State.Guild(guildID)`: cache hit = `some`, miss = `none`. -/
def shardGuild (s : ShardState) (guildID : String) : Option Guild :=
  s.guilds.find? (fun g => g.id == guildID)

/-- Embeds `s.State.UserChannelPermissions(userID, channelID)`: `some` = the
computed permission bits with a nil error, `none` = a non-nil error. -/
def shardPerms (s : ShardState) (userID channelID : String) : Option Int :=
  (s.perms.find? (fun e => e.1 == (userID, channelID))).map (fun e => e.2)

/-- The raw per-shard color cache entry for `(userID, channelID)`. -/
def colorLookup (s : ShardState) (userID channelID : String) : Option Int :=
  (s.colors.find? (fun e => e.1 == (userID, channelID))).map (fun e => e.2)

/-- Embeds `s.State.UserColor(userID, channelID)`: discordgo returns `0` whenever it
cannot resolve a color, so a missing cache entry yields `0`. -/
def shardColor (s : ShardState) (userID channelID : String) : Int :=
  (colorLookup s userID channelID).getD 0

/-- The shared loop shape of `Discord.Channel` / `Discord.Guild` /
`Discord.UserChannelPermissions` (source lines 419-455): Go named return
values start as the pair (zero value, nil error); the loop overwrites them
with each shard's result and returns at the first nil-error lookup.  The
`Bool` component models `err != nil`.  An empty shard list therefore yields
`(none, false)`: the untouched zero values, i.e. a nil error with a nil/zero
result -- this state is unreachable for an opened client, since `Open()`
indexes `Sessions[0]` (line 229). -/
def firstHit {α : Type} (f : ShardState → Option α) : List ShardState → Option α × Bool
  | [] => (none, false)
  | s :: ss =>
    match f s with
    | some a => (some a, false)
    | none =>
      match ss with
      | [] => (none, true)
      | _ :: _ => firstHit f ss

/-- Embeds `func (d *Discord) Channel(channelID string) (*discordgo.Channel, error)`
(source lines 419-427). -/
def Discord.Channel (d : Discord) (channelID : String) : Option Channel × Bool :=
  firstHit (fun s => shardChannel s channelID) d.sessions

/-- Embeds `func (d *Discord) Guild(guildID string) (*discordgo.Guild, error)`
(source lines 429-437). -/
def Discord.Guild (d : Discord) (guildID : String) : Option Guild × Bool :=
  firstHit (fun s => shardGuild s guildID) d.sessions

/-- Embeds `func (d *Discord) UserChannelPermissions(userID, channelID string)
(int, error)` (source lines 447-455).  The `int` named return is `0` on every
error path. -/
def Discord.UserChannelPermissions (d : Discord) (userID channelID : String) : Int × Bool :=
  let r := firstHit (fun s => shardPerms s userID channelID) d.sessions
  (r.1.getD 0, r.2)

/-- The loop body of `Discord.UserColor` (source lines 457-465): first shard
whose `State.UserColor` is non-zero wins; otherwise `0`. -/
def colorLoop (userID channelID : String) : List ShardState → Int
  | [] => 0
  | s :: ss =>
    if shardColor s userID channelID ≠ 0 then shardColor s userID channelID
    else colorLoop userID channelID ss

/-- Embeds `func (d *Discord) UserColor(userID, channelID string) int`
(source lines 457-465). -/
def Discord.UserColor (d : Discord) (userID channelID : String) : Int :=
  colorLoop userID channelID d.sessions

/-- Embeds `func (d *Discord) UserID() string` (source lines 194-199). -/
def Discord.UserID (d : Discord) : String :=
  match d.session.stateUser with
  | none => ""
  | some u => u.id

/-- Embeds `func (d *Discord) NicknameForID(userID, userName, channelID string)
string` (source lines 471-487): resolve channel then guild, scan members for
the user, prefer a non-empty per-guild nick, otherwise the global username.
The loop breaks at the first member with a matching user ID, hence `find?`.
(A nil-error nil-channel result, possible only with zero shards, would be a
nil-pointer dereference in Go; it is unreachable for an opened client.) -/
def Discord.NicknameForID (d : Discord) (userID userName channelID : String) : String :=
  match d.Channel channelID with
  | (some c, false) =>
    match d.Guild c.guildID with
    | (some g, false) =>
      match g.members.find? (fun m => m.user.id == userID) with
      | some m => if m.nick ≠ "" then m.nick else userName
      | none => userName
    | _ => userName
  | _ => userName

/-- Matches `[0-9]` as in the token regexes. -/
def isDigitChar (c : Char) : Bool := '0' ≤ c && c ≤ '9'

/-- The replacement callback of `replaceChannelNames` (source lines 119-126),
given the digit part `ds` of a matched token `<#ds>`: on a nil-error lookup
replace with `"#" + c.Name`, on an error keep the token text.  (With zero
shards the lookup yields a nil error together with a nil channel and the Go
code would dereference it; that state is unreachable for an opened client and
is mapped to the unchanged token here.) -/
def chanTokenRepl (d : Discord) (ds : List Char) : List Char :=
  match d.Channel (String.mk ds) with
  | (some c, false) => '#' :: c.name.data
  | _ => '<' :: '#' :: ds ++ ['>']

/-- Scanner state for the `<#[0-9]*>` pass: outside any token, after a
pending `<`, or inside a token after `<#` with the digits read so far. -/
inductive ChanSt where
  | normal
  | seenLt
  | tok (acc : List Char)
deriving DecidableEq

/-- Embeds `channelIDRegex.ReplaceAllStringFunc` for the pattern `<#[0-9]*>`
(source line 116 and lines 118-127), as a left-to-right one-character-per-step
scanner over the character list.  Matches are leftmost and non-overlapping,
replacements are not rescanned, and a failed partial match (`<#` + digits not
followed by `>`) is emitted verbatim with scanning resuming at the offending
character -- exactly the semantics of Go's `ReplaceAllStringFunc` for this
pattern, whose matches always consist of `<#`, a maximal digit run,
and `>`. -/
def chanScanA (d : Discord) : ChanSt → List Char → List Char
  | ChanSt.normal, [] => []
  | ChanSt.seenLt, [] => ['<']
  | ChanSt.tok acc, [] => '<' :: '#' :: acc
  | ChanSt.normal, c :: cs =>
    if c = '<' then chanScanA d ChanSt.seenLt cs
    else c :: chanScanA d ChanSt.normal cs
  | ChanSt.seenLt, c :: cs =>
    if c = '#' then chanScanA d (ChanSt.tok []) cs
    else if c = '<' then '<' :: chanScanA d ChanSt.seenLt cs
    else '<' :: c :: chanScanA d ChanSt.normal cs
  | ChanSt.tok acc, c :: cs =>
    if isDigitChar c then chanScanA d (ChanSt.tok (acc ++ [c])) cs
    else if c = '>' then chanTokenRepl d acc ++ chanScanA d ChanSt.normal cs
    else if c = '<' then '<' :: '#' :: acc ++ chanScanA d ChanSt.seenLt cs
    else '<' :: '#' :: acc ++ c :: chanScanA d ChanSt.normal cs

/-- Embeds `func (d *Discord) replaceChannelNames(message *discordgo.Message,
content string) string` (source lines 118-127); the `message` parameter is
unused in the source as well. -/
def Discord.replaceChannelNames (d : Discord) (message : DgoMessage) (content : String) : String :=
  String.mk (chanScanA d ChanSt.normal content.data)

/-- The resolution chain of the `replaceRoleNames` callback (source lines
135-151): message channel via `d.Channel`, then its guild via `d.Guild`, then
a linear scan of the guild's role list for a matching role ID; `none` at any
failed step.  (As with `chanTokenRepl`, the nil-error nil-value case is
unreachable for an opened client.) -/
def roleResolve (d : Discord) (message : DgoMessage) (roleID : String) : Option Role :=
  match d.Channel message.channelID with
  | (some c, false) =>
    match d.Guild c.guildID with
    | (some g, false) => g.roles.find? (fun r => r.id == roleID)
    | _ => none
  | _ => none

/-- The replacement callback of `replaceRoleNames` (source lines 132-152):
`"@" + r.Name` on success, the token text on any failed step. -/
def roleTokenRepl (d : Discord) (message : DgoMessage) (ds : List Char) : List Char :=
  match roleResolve d message (String.mk ds) with
  | some r => '@' :: r.name.data
  | none => '<' :: '@' :: '&' :: ds ++ ['>']

/-- Scanner state for the `<@&[0-9]*>` pass: outside any token, after a
pending `<`, after a pending `<@`, or inside a token after `<@&`. -/
inductive RoleSt where
  | normal
  | seenLt
  | seenLtAt
  | tok (acc : List Char)
deriving DecidableEq

/-- Embeds `roleIDRegex.ReplaceAllStringFunc` for the pattern `<@&[0-9]*>`
(source line 129 and lines 131-153), structured exactly like `chanScanA`. -/
def roleScanA (d : Discord) (message : DgoMessage) : RoleSt → List Char → List Char
  | RoleSt.normal, [] => []
  | RoleSt.seenLt, [] => ['<']
  | RoleSt.seenLtAt, [] => ['<', '@']
  | RoleSt.tok acc, [] => '<' :: '@' :: '&' :: acc
  | RoleSt.normal, c :: cs =>
    if c = '<' then roleScanA d message RoleSt.seenLt cs
    else c :: roleScanA d message RoleSt.normal cs
  | RoleSt.seenLt, c :: cs =>
    if c = '@' then roleScanA d message RoleSt.seenLtAt cs
    else if c = '<' then '<' :: roleScanA d message RoleSt.seenLt cs
    else '<' :: c :: roleScanA d message RoleSt.normal cs
  | RoleSt.seenLtAt, c :: cs =>
    if c = '&' then roleScanA d message (RoleSt.tok []) cs
    else if c = '<' then '<' :: '@' :: roleScanA d message RoleSt.seenLt cs
    else '<' :: '@' :: c :: roleScanA d message RoleSt.normal cs
  | RoleSt.tok acc, c :: cs =>
    if isDigitChar c then roleScanA d message (RoleSt.tok (acc ++ [c])) cs
    else if c = '>' then roleTokenRepl d message acc ++ roleScanA d message RoleSt.normal cs
    else if c = '<' then '<' :: '@' :: '&' :: acc ++ roleScanA d message RoleSt.seenLt cs
    else '<' :: '@' :: '&' :: acc ++ c :: roleScanA d message RoleSt.normal cs

/-- Embeds `func (d *Discord) replaceRoleNames(message *discordgo.Message,
content string) string` (source lines 131-153). -/
def Discord.replaceRoleNames (d : Discord) (message : DgoMessage) (content : String) : String :=
  String.mk (roleScanA d message RoleSt.normal content.data)

/-- Models `discordgo.Message.ContentWithMentionsReplaced` (external library
code called at source line 81): for each user in `Mentions`, every occurrence
of `<@ID>` and `<@!ID>` is replaced by `@Username`. -/
def contentWithMentionsReplaced (m : DgoMessage) : String :=
  m.mentions.foldl
    (fun content u =>
      ((content.replace ("<@" ++ u.id ++ ">") ("@" ++ u.username)).replace
        ("<@!" ++ u.id ++ ">") ("@" ++ u.username)))
    m.content

/-- Models `discordgo.EndpointUserAvatar` (external library code called at
source line 76): the CDN avatar URL built from the user and avatar IDs. -/
def endpointUserAvatar (uID aID : String) : String :=
  "https://cdn.discordapp.com/avatars/" ++ uID ++ "/" ++ aID ++ ".jpg"

/-- Embeds `func (m *DiscordMessage) Channel() string` (source lines 46-48). -/
def DiscordMessage.Channel (m : DiscordMessage) : String :=
  m.dgoMessage.channelID

/-- Embeds `func (m *DiscordMessage) UserName() string` (source lines 50-61): empty
string for a nil author; otherwise memoized `NicknameForID`.  Returns the
value together with the updated message (the possibly-written `Nick` cache);
`d` is the state behind `m.Discord` at call time. -/
def DiscordMessage.UserName (m : DiscordMessage) (d : Discord) : String × DiscordMessage :=
  match m.dgoMessage.author with
  | none => ("", m)
  | some a =>
    match m.nick with
    | some n => (n, m)
    | none =>
      let n := d.NicknameForID a.id a.username m.dgoMessage.channelID
      (n, { m with nick := some n })

/-- Embeds `func (m *DiscordMessage) UserID() string` (source lines 63-69). -/
def DiscordMessage.UserID (m : DiscordMessage) : String :=
  match m.dgoMessage.author with
  | none => ""
  | some a => a.id

/-- Embeds `func (m *DiscordMessage) UserAvatar() string` (source lines 71-77). -/
def DiscordMessage.UserAvatar (m : DiscordMessage) : String :=
  match m.dgoMessage.author with
  | none => ""
  | some a => endpointUserAvatar a.id a.avatar

/-- Embeds `func (m *DiscordMessage) Message() string` (source lines 79-88): on the
first call, mention replacement, then `replaceRoleNames`, then
`replaceChannelNames`, and the result is written to the `Content` cache;
subsequent calls return the cache. -/
def DiscordMessage.Message (m : DiscordMessage) (d : Discord) : String × DiscordMessage :=
  match m.content with
  | some c => (c, m)
  | none =>
    let c0 := contentWithMentionsReplaced m.dgoMessage
    let c1 := d.replaceRoleNames m.dgoMessage c0
    let c2 := d.replaceChannelNames m.dgoMessage c1
    (c2, { m with content := some c2 })

/-- Embeds `func (m *DiscordMessage) RawMessage() string` (source lines 90-92). -/
def DiscordMessage.RawMessage (m : DiscordMessage) : String :=
  m.dgoMessage.content

/-- Embeds `message.Author != nil && message.Author.Bot` (source lines 156, 168). -/
def authorIsBot (m : DgoMessage) : Bool :=
  match m.author with
  | none => false
  | some a => a.bot

/-- Embeds `func (d *Discord) onMessageCreate(...)` (source lines 155-165): the
envelope pushed onto `messageChan`, or `none` when the event is dropped. -/
def onMessageCreate (m : DgoMessage) : Option DiscordMessage :=
  if m.content == "" || authorIsBot m then none
  else some ⟨m, MessageType.create, none, none⟩

/-- Embeds `func (d *Discord) onMessageUpdate(...)` (source lines 167-177). -/
def onMessageUpdate (m : DgoMessage) : Option DiscordMessage :=
  if m.content == "" || authorIsBot m then none
  else some ⟨m, MessageType.update, none, none⟩

/-- Embeds `func (d *Discord) onMessageDelete(...)` (source lines 179-185): always
pushes, no filter. -/
def onMessageDelete (m : DgoMessage) : Option DiscordMessage :=
  some ⟨m, MessageType.delete, none, none⟩

/-- Embeds `discordgo.MessageEmbed` (fields the repository sets in `SendAction`:
Color, Description). -/
structure MessageEmbed where
  color : Int
  description : String
deriving DecidableEq

/-- One outbound transport call made through `d.Session`. -/
inductive TransportCall where
  | sendText (channel message : String)
  | sendEmbed (channel : String) (embed : MessageEmbed)
  | sendFile (channel name : String)
deriving DecidableEq

/-- The transport oracle: whether each underlying discordgo call
(`ChannelMessageSend`, `ChannelMessageSendEmbed`, `ChannelFileSend`) returns
a non-nil error. -/
structure Transport where
  sendTextFails : String → String → Bool
  sendEmbedFails : String → MessageEmbed → Bool
  sendFileFails : String → String → Bool

/-- Value of `discordgo.PermissionEmbedLinks = 1 << 14`. -/
def permissionEmbedLinks : Int := 16384

/-- Embeds `func (d *Discord) SendMessage(channel string, message string) error`
(source lines 245-257): empty channel is a logged no-op with a nil error;
otherwise one `ChannelMessageSend` call whose error is returned.  The result
is the list of transport calls made, and whether a non-nil error was
returned. -/
def SendMessage (t : Transport) (channel message : String) : List TransportCall × Bool :=
  if channel == "" then ([], false)
  else ([TransportCall.sendText channel message], t.sendTextFails channel message)

/-- Embeds `func (d *Discord) SendEmbedMessage(channel string,
message *discordgo.MessageEmbed) error` (source lines 259-271). -/
def SendEmbedMessage (t : Transport) (channel : String) (embed : MessageEmbed) : List TransportCall × Bool :=
  if channel == "" then ([], false)
  else ([TransportCall.sendEmbed channel embed], t.sendEmbedFails channel embed)

/-- Embeds `func (d *Discord) SendAction(channel string, message string) error`
(source lines 273-295): empty channel is a no-op; a permission-resolution
error falls back to `SendMessage`; with the embed-links bit set, one
`ChannelMessageSendEmbed` call carrying `UserColor` and the message;
otherwise `SendMessage`. -/
def SendAction (d : Discord) (t : Transport) (channel message : String) : List TransportCall × Bool :=
  if channel == "" then ([], false)
  else
    match d.UserChannelPermissions d.UserID channel with
    | (_, true) => SendMessage t channel message
    | (p, false) =>
      if Int.land p permissionEmbedLinks = permissionEmbedLinks then
        ([TransportCall.sendEmbed channel ⟨d.UserColor d.UserID channel, message⟩],
          t.sendEmbedFails channel ⟨d.UserColor d.UserID channel, message⟩)
      else SendMessage t channel message

/-- Embeds `func (d *Discord) SendFile(channel, name string, r io.Reader) error`
(source lines 301-307): no empty-channel guard -- the `ChannelFileSend` call
is made unconditionally and its error returned. -/
def SendFile (t : Transport) (channel name : String) : List TransportCall × Bool :=
  ([TransportCall.sendFile channel name], t.sendFileFails channel name)

/-! ## Concrete instances used by individual claims -/

/-- Transport oracle for C1: the file-send call errors, the others do not. -/
def transportC1 : Transport :=
  ⟨fun _ _ => false, fun _ _ => false, fun _ _ => true⟩

/-- Shard for C2: channel `5` is named `<@&7>` (a channel name that itself
looks like a role token), and guild `1` holds role `7` named `x`. -/
def shardC2 : ShardState :=
  ⟨[⟨"5", "<@&7>", "1"⟩], [⟨"1", "own", [⟨"7", "x"⟩], []⟩], [], [], none⟩

/-- Client for C2. -/
def dC2 : Discord := ⟨shardC2, [shardC2], "o"⟩

/-- Message for C2: raw content is a single channel-mention token. -/
def msgC2 : DiscordMessage :=
  ⟨⟨"m1", "5", "<#5>", none, []⟩, MessageType.create, none, none⟩

/-- Event for C3: non-empty content, bot author. -/
def dgoC3 : DgoMessage := ⟨"1", "c", "hello", some ⟨"u1", "bw", "", true⟩, []⟩

/-- Shards for C5: the first shard misses channel `9`, the second resolves it
to name `general`. -/
def shardC5a : ShardState := ⟨[], [], [], [], none⟩

/-- Second shard for C5. -/
def shardC5b : ShardState := ⟨[⟨"9", "general", "g"⟩], [], [], [], none⟩

/-- Client for C5. -/
def dC5 : Discord := ⟨shardC5a, [shardC5a, shardC5b], "o"⟩

/-- Message for C5 (its channel is irrelevant to the channel pass). -/
def msgC5 : DgoMessage := ⟨"m", "c", "", none, []⟩

/-- Shard for C6: the message's channel `c1` belongs to guild `g1`, which
holds role `42` named `Admins`. -/
def shardC6 : ShardState :=
  ⟨[⟨"c1", "chat", "g1"⟩], [⟨"g1", "own", [⟨"42", "Admins"⟩], []⟩], [], [], none⟩

/-- Client for C6. -/
def dC6 : Discord := ⟨shardC6, [shardC6], "o"⟩

/-- Message for C6, originating in channel `c1`. -/
def msgC6 : DgoMessage := ⟨"m", "c1", "", none, []⟩

/-- Shard for C7: the bot user `u7` holds exactly the embed-links permission
bit in channel `chan`; no color is cached. -/
def shardC7 : ShardState :=
  ⟨[], [], [(("u7", "chan"), 16384)], [], some ⟨"u7", "mb", "", true⟩⟩

/-- Client for C7. -/
def dC7 : Discord := ⟨shardC7, [shardC7], "o"⟩

/-- Transport oracle for C7: no call errors. -/
def transportC7 : Transport :=
  ⟨fun _ _ => false, fun _ _ => false, fun _ _ => false⟩

/-- Shards for C8: the first has no color entry for `(u, c)`, the second
caches exactly the zero color. -/
def shardC8a : ShardState := ⟨[], [], [], [], none⟩

/-- Second shard for C8. -/
def shardC8b : ShardState := ⟨[], [], [], [(("u", "c"), 0)], none⟩

/-- Client for C8. -/
def dC8 : Discord := ⟨shardC8a, [shardC8a, shardC8b], "o"⟩

/-- Shards for C9: the first shard's caches are empty, the second resolves
channel `ch1`. -/
def shardC9a : ShardState := ⟨[], [], [], [], none⟩

/-- Second shard for C9. -/
def shardC9b : ShardState := ⟨[⟨"ch1", "general", "g1"⟩], [], [], [], none⟩

/-- Client for C9. -/
def dC9 : Discord := ⟨shardC9a, [shardC9a, shardC9b], "o"⟩

/-- Client for C10 (its caches are irrelevant to a nil-author message). -/
def dC10 : Discord := ⟨⟨[], [], [], [], none⟩, [⟨[], [], [], [], none⟩], "o"⟩

/-- Message for C10: a delete-event envelope whose raw event has no author. -/
def msgC10 : DiscordMessage :=
  ⟨⟨"9", "c", "", none, []⟩, MessageType.delete, none, none⟩

/-! ## Helper lemmas -/

theorem firstHit_cons_some {α : Type} (f : ShardState → Option α) (s : ShardState)
    (ss : List ShardState) (a : α) (hs : f s = some a) :
    firstHit f (s :: ss) = (some a, false) := by
  cases ss <;> simp [firstHit, hs]

theorem firstHit_cons_none {α : Type} (f : ShardState → Option α) (s s2 : ShardState)
    (ss2 : List ShardState) (hs : f s = none) :
    firstHit f (s :: s2 :: ss2) = firstHit f (s2 :: ss2) := by
  simp [firstHit, hs]

theorem firstHit_single_none {α : Type} (f : ShardState → Option α) (s : ShardState)
    (hs : f s = none) : firstHit f [s] = (none, true) := by
  simp [firstHit, hs]

theorem firstHit_allMiss {α : Type} (f : ShardState → Option α) :
    ∀ ss : List ShardState, ss ≠ [] → (∀ s ∈ ss, f s = none) →
      firstHit f ss = (none, true) := by
  intro ss
  induction ss with
  | nil => intro h; exact absurd rfl h
  | cons s ss ih =>
    intro _ hmiss
    have hs : f s = none := hmiss s (List.mem_cons_self s ss)
    cases ss with
    | nil => exact firstHit_single_none f s hs
    | cons s2 ss2 =>
      rw [firstHit_cons_none f s s2 ss2 hs]
      exact ih (by simp) (fun x hx => hmiss x (List.mem_cons_of_mem s hx))

theorem firstHit_firstSuccess {α : Type} (f : ShardState → Option α) (a : α) :
    ∀ (pre : List ShardState) (s : ShardState) (post : List ShardState),
      (∀ s2 ∈ pre, f s2 = none) → f s = some a →
      firstHit f (pre ++ s :: post) = (some a, false) := by
  intro pre
  induction pre with
  | nil => intro s post _ hs; exact firstHit_cons_some f s post a hs
  | cons p pre ih =>
    intro s post hmiss hs
    have hp : f p = none := hmiss p (List.mem_cons_self p pre)
    have htail := ih s post (fun x hx => hmiss x (List.mem_cons_of_mem p hx)) hs
    cases pre with
    | nil =>
      rw [List.cons_append, List.nil_append, firstHit_cons_none f p s post hp]
      simpa using htail
    | cons q pre2 =>
      rw [List.cons_append, List.cons_append, firstHit_cons_none f p q (pre2 ++ s :: post) hp]
      simpa using htail

theorem firstHit_of_exists {α : Type} (f : ShardState → Option α) :
    ∀ ss : List ShardState, (∃ s ∈ ss, (f s).isSome = true) →
      ∃ a, firstHit f ss = (some a, false) ∧ ∃ s ∈ ss, f s = some a := by
  intro ss
  induction ss with
  | nil => intro h; simp at h
  | cons s ss ih =>
    intro h
    cases hs : f s with
    | some a =>
      exact ⟨a, firstHit_cons_some f s ss a hs, s, List.mem_cons_self s ss, hs⟩
    | none =>
      have hex : ∃ x ∈ ss, (f x).isSome = true := by
        rcases h with ⟨x, hx, hsome⟩
        rcases List.mem_cons.mp hx with h1 | h2
        · rw [h1, hs] at hsome; simp at hsome
        · exact ⟨x, h2, hsome⟩
      rcases ih hex with ⟨a, hfh, x, hx, hfx⟩
      refine ⟨a, ?_, x, List.mem_cons_of_mem s hx, hfx⟩
      cases ss with
      | nil => simp at hex
      | cons s2 ss2 => rw [firstHit_cons_none f s s2 ss2 hs]; exact hfh

theorem chanScanA_noLt (d : Discord) :
    ∀ (pre rest : List Char), (∀ c ∈ pre, c ≠ '<') →
      chanScanA d ChanSt.normal (pre ++ rest) = pre ++ chanScanA d ChanSt.normal rest := by
  intro pre
  induction pre with
  | nil => intro rest _; simp
  | cons c pre ih =>
    intro rest h
    have hc : c ≠ '<' := h c (List.mem_cons_self c pre)
    have := ih rest (fun x hx => h x (List.mem_cons_of_mem c hx))
    simp [chanScanA, hc, this]

theorem chanScanA_digits (d : Discord) :
    ∀ (ds : List Char), (∀ c ∈ ds, isDigitChar c = true) →
      ∀ (acc suf : List Char),
        chanScanA d (ChanSt.tok acc) (ds ++ '>' :: suf)
          = chanTokenRepl d (acc ++ ds) ++ chanScanA d ChanSt.normal suf := by
  intro ds
  induction ds with
  | nil =>
    intro _ acc suf
    simp [chanScanA, isDigitChar]
  | cons c ds ih =>
    intro h acc suf
    have hc : isDigitChar c = true := h c (List.mem_cons_self c ds)
    have key := ih (fun x hx => h x (List.mem_cons_of_mem c hx)) (acc ++ [c]) suf
    rw [List.cons_append,
      show chanScanA d (ChanSt.tok acc) (c :: (ds ++ '>' :: suf))
        = chanScanA d (ChanSt.tok (acc ++ [c])) (ds ++ '>' :: suf) from by
        simp [chanScanA, hc],
      key]
    simp

theorem chanScanA_token (d : Discord) (ds suf : List Char)
    (h : ∀ c ∈ ds, isDigitChar c = true) :
    chanScanA d ChanSt.normal ('<' :: '#' :: (ds ++ '>' :: suf))
      = chanTokenRepl d ds ++ chanScanA d ChanSt.normal suf := by
  have h1 : chanScanA d ChanSt.normal ('<' :: '#' :: (ds ++ '>' :: suf))
      = chanScanA d ChanSt.seenLt ('#' :: (ds ++ '>' :: suf)) := by
    simp [chanScanA]
  have h2 : chanScanA d ChanSt.seenLt ('#' :: (ds ++ '>' :: suf))
      = chanScanA d (ChanSt.tok []) (ds ++ '>' :: suf) := by
    simp [chanScanA]
  rw [h1, h2, chanScanA_digits d ds h [] suf]
  simp

theorem roleScanA_noLt (d : Discord) (msg : DgoMessage) :
    ∀ (pre rest : List Char), (∀ c ∈ pre, c ≠ '<') →
      roleScanA d msg RoleSt.normal (pre ++ rest)
        = pre ++ roleScanA d msg RoleSt.normal rest := by
  intro pre
  induction pre with
  | nil => intro rest _; simp
  | cons c pre ih =>
    intro rest h
    have hc : c ≠ '<' := h c (List.mem_cons_self c pre)
    have := ih rest (fun x hx => h x (List.mem_cons_of_mem c hx))
    simp [roleScanA, hc, this]

theorem roleScanA_digits (d : Discord) (msg : DgoMessage) :
    ∀ (ds : List Char), (∀ c ∈ ds, isDigitChar c = true) →
      ∀ (acc suf : List Char),
        roleScanA d msg (RoleSt.tok acc) (ds ++ '>' :: suf)
          = roleTokenRepl d msg (acc ++ ds) ++ roleScanA d msg RoleSt.normal suf := by
  intro ds
  induction ds with
  | nil =>
    intro _ acc suf
    simp [roleScanA, isDigitChar]
  | cons c ds ih =>
    intro h acc suf
    have hc : isDigitChar c = true := h c (List.mem_cons_self c ds)
    have key := ih (fun x hx => h x (List.mem_cons_of_mem c hx)) (acc ++ [c]) suf
    rw [List.cons_append,
      show roleScanA d msg (RoleSt.tok acc) (c :: (ds ++ '>' :: suf))
        = roleScanA d msg (RoleSt.tok (acc ++ [c])) (ds ++ '>' :: suf) from by
        simp [roleScanA, hc],
      key]
    simp

theorem roleScanA_token (d : Discord) (msg : DgoMessage) (ds suf : List Char)
    (h : ∀ c ∈ ds, isDigitChar c = true) :
    roleScanA d msg RoleSt.normal ('<' :: '@' :: '&' :: (ds ++ '>' :: suf))
      = roleTokenRepl d msg ds ++ roleScanA d msg RoleSt.normal suf := by
  have h1 : roleScanA d msg RoleSt.normal ('<' :: '@' :: '&' :: (ds ++ '>' :: suf))
      = roleScanA d msg (RoleSt.tok []) (ds ++ '>' :: suf) := by
    simp [roleScanA]
  rw [h1, roleScanA_digits d msg ds h [] suf]
  simp

theorem colorLoop_zero (userID channelID : String) :
    ∀ ss : List ShardState, (∀ s ∈ ss, shardColor s userID channelID = 0) →
      colorLoop userID channelID ss = 0 := by
  intro ss
  induction ss with
  | nil => intro _; rfl
  | cons s ss ih =>
    intro h
    have hs : shardColor s userID channelID = 0 := h s (List.mem_cons_self s ss)
    have := ih (fun x hx => h x (List.mem_cons_of_mem s hx))
    simp [colorLoop, hs, this]

/-! ## Claims -/

/-- C1 (counterexample): the claim "every send-family operation, given an
empty channel identifier, makes no transport call and returns a nil error"
fails on `SendFile`: at the concrete input (channel `""`, file name
`"report.txt"`, a transport whose file-send call errors) the code makes the
`ChannelFileSend` transport call anyway and returns its non-nil error. -/
theorem C1_counterexample :
    (SendFile transportC1 "" "report.txt").1
        = [TransportCall.sendFile "" "report.txt"]
      ∧ (SendFile transportC1 "" "report.txt").2 = true := by
  exact ⟨rfl, rfl⟩

/-- C1 (amended): send-text, send-embed and smart send, given an empty
channel identifier, make no transport call and return a nil error; send-file
has no such guard and performs its transport call (returning that call's
error) even for the empty channel identifier. -/
theorem C1_empty_target_policy (t : Transport) (d : Discord)
    (message name : String) (embed : MessageEmbed) :
    SendMessage t "" message = ([], false)
      ∧ SendEmbedMessage t "" embed = ([], false)
      ∧ SendAction d t "" message = ([], false)
      ∧ SendFile t "" name = ([TransportCall.sendFile "" name], t.sendFileFails "" name) := by
  refine ⟨by simp [SendMessage], by simp [SendEmbedMessage], by simp [SendAction], rfl⟩

/-- C2 (counterexample): the claim "the normalized result equals the
role-mention pass applied to the output of the channel-mention pass" fails at
a concrete input: raw content `<#5>` where channel `5` is named `<@&7>` and
guild `1` holds role `7` named `x`.  The code (role pass first, channel pass
second) yields `#<@&7>`, while the claimed composition yields `#@x`. -/
theorem C2_counterexample :
    (msgC2.Message dC2).1
      ≠ dC2.replaceRoleNames msgC2.dgoMessage
          (dC2.replaceChannelNames msgC2.dgoMessage
            (contentWithMentionsReplaced msgC2.dgoMessage)) := by
  decide

/-- C2 (amended): when normalized content is first computed for a Message,
the two rewrite passes run unconditionally in the fixed order role-mention
pass first, channel-mention pass second (after user-mention replacement), so
the normalized result equals the channel pass applied to the output of the
role pass; the result is cached. -/
theorem C2_pass_order (d : Discord) (m : DiscordMessage) (h : m.content = none) :
    (m.Message d).1
        = d.replaceChannelNames m.dgoMessage
            (d.replaceRoleNames m.dgoMessage (contentWithMentionsReplaced m.dgoMessage))
      ∧ (m.Message d).2 = { m with content := some ((m.Message d).1) } := by
  constructor <;> simp [DiscordMessage.Message, h]

/-- C2 (witness): the amended order theorem applied at the concrete C2
instance. -/
theorem C2_witness :
    (msgC2.Message dC2).1
      = dC2.replaceChannelNames msgC2.dgoMessage
          (dC2.replaceRoleNames msgC2.dgoMessage
            (contentWithMentionsReplaced msgC2.dgoMessage)) :=
  (C2_pass_order dC2 msgC2 rfl).1

/-- C3: a Create or Update event with empty raw content or a bot author is
never pushed onto the output queue; a Delete event is always pushed,
regardless of content or author. -/
theorem C3_dispatcher_filter (m : DgoMessage) :
    ((m.content = "" ∨ authorIsBot m = true) →
        onMessageCreate m = none ∧ onMessageUpdate m = none)
      ∧ onMessageDelete m = some ⟨m, MessageType.delete, none, none⟩ := by
  constructor
  · intro h
    have hb : (m.content == "" || authorIsBot m) = true := by
      rcases h with h | h
      · simp [h]
      · simp [h]
    exact ⟨by simp [onMessageCreate, hb], by simp [onMessageUpdate, hb]⟩
  · rfl

/-- C3 (witness): the filter theorem applied at a concrete bot-authored
event. -/
theorem C3_witness :
    onMessageCreate dgoC3 = none ∧ onMessageUpdate dgoC3 = none
      ∧ onMessageDelete dgoC3 = some ⟨dgoC3, MessageType.delete, none, none⟩ :=
  ⟨((C3_dispatcher_filter dgoC3).1 (Or.inr (by decide))).1,
    ((C3_dispatcher_filter dgoC3).1 (Or.inr (by decide))).2,
    (C3_dispatcher_filter dgoC3).2⟩

/-- C4: for every Message instance and any two states of the client's caches,
the second call to the normalized-content accessor returns exactly the first
call's value and leaves the message unchanged, and likewise for the
display-name accessor -- the memoized fields are computed at most once and
subsequent calls return the cached value even if the underlying channel,
guild, membership, or role data changed in between. -/
theorem C4_memoization (d1 d2 : Discord) (m : DiscordMessage) :
    ((m.Message d1).2.Message d2).1 = (m.Message d1).1
      ∧ ((m.Message d1).2.Message d2).2 = (m.Message d1).2
      ∧ ((m.UserName d1).2.UserName d2).1 = (m.UserName d1).1
      ∧ ((m.UserName d1).2.UserName d2).2 = (m.UserName d1).2 := by
  refine ⟨?_, ?_, ?_, ?_⟩ <;>
    cases hc : m.content <;> cases ha : m.dgoMessage.author <;> cases hn : m.nick <;>
      simp [DiscordMessage.Message, DiscordMessage.UserName, hc, ha, hn]

/-- C5: for a channel-mention token `<#id>` in a message body (preceded by
token-free text), if some shard's cache resolves `id` -- all resolving shards
agreeing on the name `n` -- the token is replaced by `#` + n; if `id` is
absent from every shard's cache (the shard list being non-empty), the token
is left byte-for-byte unchanged.  The rest of the body is scanned
recursively. -/
theorem C5_channel_mention (d : Discord) (msg : DgoMessage)
    (pre tid suf : List Char) (n : String)
    (hpre : ∀ c ∈ pre, c ≠ '<') (hid : ∀ c ∈ tid, isDigitChar c = true) :
    ((∃ s ∈ d.sessions, (shardChannel s (String.mk tid)).isSome = true) →
      (∀ s ∈ d.sessions,
        Option.all (fun ch => ch.name == n) (shardChannel s (String.mk tid)) = true) →
      d.replaceChannelNames msg (String.mk (pre ++ '<' :: '#' :: (tid ++ '>' :: suf)))
        = String.mk (pre ++ '#' :: (n.data ++ chanScanA d ChanSt.normal suf)))
    ∧ ((∀ s ∈ d.sessions, shardChannel s (String.mk tid) = none) → d.sessions ≠ [] →
      d.replaceChannelNames msg (String.mk (pre ++ '<' :: '#' :: (tid ++ '>' :: suf)))
        = String.mk (pre ++ '<' :: '#' :: (tid ++ '>' :: chanScanA d ChanSt.normal suf))) := by
  constructor
  · intro hex hagree
    obtain ⟨a, hfh, s, hmem, hfs⟩ :=
      firstHit_of_exists (fun s => shardChannel s (String.mk tid)) d.sessions hex
    have hname : a.name = n := by
      have hall := hagree s hmem
      rw [hfs] at hall
      simpa using hall
    have hch : d.Channel (String.mk tid) = (some a, false) := hfh
    have hrepl : chanTokenRepl d tid = '#' :: n.data := by
      simp [chanTokenRepl, hch, hname]
    show String.mk (chanScanA d ChanSt.normal (pre ++ '<' :: '#' :: (tid ++ '>' :: suf))) = _
    rw [chanScanA_noLt d pre ('<' :: '#' :: (tid ++ '>' :: suf)) hpre,
      chanScanA_token d tid suf hid, hrepl]
    simp
  · intro hmiss hne
    have hch : d.Channel (String.mk tid) = (none, true) :=
      firstHit_allMiss (fun s => shardChannel s (String.mk tid)) d.sessions hne hmiss
    have hrepl : chanTokenRepl d tid = '<' :: '#' :: tid ++ ['>'] := by
      simp [chanTokenRepl, hch]
    show String.mk (chanScanA d ChanSt.normal (pre ++ '<' :: '#' :: (tid ++ '>' :: suf))) = _
    rw [chanScanA_noLt d pre ('<' :: '#' :: (tid ++ '>' :: suf)) hpre,
      chanScanA_token d tid suf hid, hrepl]
    simp

/-- C5 (witness): the channel-mention theorem applied at a concrete client
whose second shard resolves channel `9` to `general`, on the body
`hi <#9>`. -/
theorem C5_witness :
    dC5.replaceChannelNames msgC5
        (String.mk (['h', 'i', ' '] ++ '<' :: '#' :: (['9'] ++ '>' :: [])))
      = String.mk (['h', 'i', ' ']
          ++ '#' :: ("general".data ++ chanScanA dC5 ChanSt.normal [])) :=
  (C5_channel_mention dC5 msgC5 ['h', 'i', ' '] ['9'] [] "general"
    (by decide) (by decide)).1 (by decide) (by decide)

/-- C6: for a role-mention token `<@&id>` in a message body (preceded by
token-free text): when the chain message-channel → guild → linear scan of the
guild's role list (embodied by `roleResolve`, translated from the source's
callback) yields a role `r`, the token is replaced by `@` + r.name; when any
step fails (channel miss, guild miss, or no matching role, i.e. `roleResolve`
yields nothing), the token is left unchanged. -/
theorem C6_role_mention (d : Discord) (msg : DgoMessage)
    (pre tid suf : List Char)
    (hpre : ∀ c ∈ pre, c ≠ '<') (hid : ∀ c ∈ tid, isDigitChar c = true) :
    (∀ r : Role, roleResolve d msg (String.mk tid) = some r →
      d.replaceRoleNames msg (String.mk (pre ++ '<' :: '@' :: '&' :: (tid ++ '>' :: suf)))
        = String.mk (pre ++ '@' :: (r.name.data ++ roleScanA d msg RoleSt.normal suf)))
    ∧ (roleResolve d msg (String.mk tid) = none →
      d.replaceRoleNames msg (String.mk (pre ++ '<' :: '@' :: '&' :: (tid ++ '>' :: suf)))
        = String.mk (pre ++ '<' :: '@' :: '&' :: (tid ++ '>' :: roleScanA d msg RoleSt.normal suf))) := by
  constructor
  · intro r hres
    have hrepl : roleTokenRepl d msg tid = '@' :: r.name.data := by
      simp [roleTokenRepl, hres]
    show String.mk (roleScanA d msg RoleSt.normal
      (pre ++ '<' :: '@' :: '&' :: (tid ++ '>' :: suf))) = _
    rw [roleScanA_noLt d msg pre ('<' :: '@' :: '&' :: (tid ++ '>' :: suf)) hpre,
      roleScanA_token d msg tid suf hid, hrepl]
    simp
  · intro hres
    have hrepl : roleTokenRepl d msg tid = '<' :: '@' :: '&' :: tid ++ ['>'] := by
      simp [roleTokenRepl, hres]
    show String.mk (roleScanA d msg RoleSt.normal
      (pre ++ '<' :: '@' :: '&' :: (tid ++ '>' :: suf))) = _
    rw [roleScanA_noLt d msg pre ('<' :: '@' :: '&' :: (tid ++ '>' :: suf)) hpre,
      roleScanA_token d msg tid suf hid, hrepl]
    simp

/-- C6 (witness): the role-mention theorem applied at a concrete client where
the message's channel resolves to guild `g1` holding role `42` named
`Admins`, on the body `<@&42>`. -/
theorem C6_witness :
    dC6.replaceRoleNames msgC6
        (String.mk (([] : List Char) ++ '<' :: '@' :: '&' :: (['4', '2'] ++ '>' :: [])))
      = String.mk (([] : List Char)
          ++ '@' :: ("Admins".data ++ roleScanA dC6 msgC6 RoleSt.normal [])) :=
  (C6_role_mention dC6 msgC6 [] ['4', '2'] [] (by decide) (by decide)).1
    ⟨"42", "Admins"⟩ (by decide)

/-- C7: smart send on a non-empty channel: a permission-resolution error
yields the plain-text call; a successful resolution with the embed-links bit
set yields a single embed call whose color is `UserColor` of the acting user
for that channel and whose description is the message text; otherwise the
plain-text call. -/
theorem C7_smart_send (d : Discord) (t : Transport) (channel message : String)
    (h : channel ≠ "") :
    ((d.UserChannelPermissions d.UserID channel).2 = true →
      SendAction d t channel message
        = ([TransportCall.sendText channel message], t.sendTextFails channel message))
    ∧ (∀ p : Int, d.UserChannelPermissions d.UserID channel = (p, false) →
        (Int.land p permissionEmbedLinks = permissionEmbedLinks →
          SendAction d t channel message
            = ([TransportCall.sendEmbed channel ⟨d.UserColor d.UserID channel, message⟩],
                t.sendEmbedFails channel ⟨d.UserColor d.UserID channel, message⟩))
        ∧ (Int.land p permissionEmbedLinks ≠ permissionEmbedLinks →
          SendAction d t channel message
            = ([TransportCall.sendText channel message], t.sendTextFails channel message))) := by
  have hch : (channel == "") = false := by
    simpa using h
  constructor
  · intro h2
    rcases hpe : d.UserChannelPermissions d.UserID channel with ⟨p, e⟩
    rw [hpe] at h2
    simp at h2
    subst h2
    simp [SendAction, hch, hpe, SendMessage]
  · intro p hpe
    constructor
    · intro hbit
      simp [SendAction, hch, hpe, hbit]
    · intro hbit
      simp [SendAction, hch, hpe, hbit, SendMessage]

/-- C7 (witness): the smart-send theorem applied at a concrete client whose
shard grants exactly the embed-links bit to the acting user. -/
theorem C7_witness :
    SendAction dC7 transportC7 "chan" "hello"
      = ([TransportCall.sendEmbed "chan" ⟨dC7.UserColor dC7.UserID "chan", "hello"⟩],
          transportC7.sendEmbedFails "chan" ⟨dC7.UserColor dC7.UserID "chan", "hello"⟩) :=
  ((C7_smart_send dC7 transportC7 "chan" "hello" (by decide)).2 16384 (by decide)).1
    (by decide)

/-- C8: `UserColor` returns the sentinel `0` both when no shard's cache holds
a color entry for the user/channel pair and when every present entry is
exactly the zero color -- the two cases are indistinguishable from the return
value. -/
theorem C8_usercolor_sentinel (d : Discord) (userID channelID : String) :
    ((∀ s ∈ d.sessions, colorLookup s userID channelID = none) →
      d.UserColor userID channelID = 0)
    ∧ ((∀ s ∈ d.sessions, colorLookup s userID channelID = none
          ∨ colorLookup s userID channelID = some 0) →
      d.UserColor userID channelID = 0) := by
  constructor
  · intro h
    refine colorLoop_zero userID channelID d.sessions (fun s hs => ?_)
    simp [shardColor, h s hs]
  · intro h
    refine colorLoop_zero userID channelID d.sessions (fun s hs => ?_)
    rcases h s hs with h2 | h2 <;> simp [shardColor, h2]

/-- C8 (witness): the sentinel theorem applied at a concrete client whose
first shard has no color entry and whose second shard caches exactly the zero
color. -/
theorem C8_witness : dC8.UserColor "u" "c" = 0 :=
  (C8_usercolor_sentinel dC8 "u" "c").2 (by decide)

/-- C9: the single-key lookups `Channel`, `Guild` and
`UserChannelPermissions` scan the shard list in ascending shard-index order
and return the first shard result with a nil error; if every shard's lookup
fails (the shard list being non-empty, as it is for every opened client), the
operation returns a not-found error. -/
theorem C9_aggregator_lookup (d : Discord) (cid gid uid chid : String)
    (hne : d.sessions ≠ []) :
    ((∀ s ∈ d.sessions, shardChannel s cid = none) → d.Channel cid = (none, true))
    ∧ (∀ (pre : List ShardState) (s : ShardState) (post : List ShardState) (c : Channel),
        d.sessions = pre ++ s :: post → (∀ s2 ∈ pre, shardChannel s2 cid = none) →
        shardChannel s cid = some c → d.Channel cid = (some c, false))
    ∧ ((∀ s ∈ d.sessions, shardGuild s gid = none) → d.Guild gid = (none, true))
    ∧ (∀ (pre : List ShardState) (s : ShardState) (post : List ShardState) (g : Guild),
        d.sessions = pre ++ s :: post → (∀ s2 ∈ pre, shardGuild s2 gid = none) →
        shardGuild s gid = some g → d.Guild gid = (some g, false))
    ∧ ((∀ s ∈ d.sessions, shardPerms s uid chid = none) →
        d.UserChannelPermissions uid chid = (0, true))
    ∧ (∀ (pre : List ShardState) (s : ShardState) (post : List ShardState) (p : Int),
        d.sessions = pre ++ s :: post → (∀ s2 ∈ pre, shardPerms s2 uid chid = none) →
        shardPerms s uid chid = some p →
        d.UserChannelPermissions uid chid = (p, false)) := by
  refine ⟨?_, ?_, ?_, ?_, ?_, ?_⟩
  · intro hmiss
    exact firstHit_allMiss (fun s => shardChannel s cid) d.sessions hne hmiss
  · intro pre s post c hsess hmiss hs
    show firstHit (fun s => shardChannel s cid) d.sessions = (some c, false)
    rw [hsess]
    exact firstHit_firstSuccess (fun s => shardChannel s cid) c pre s post hmiss hs
  · intro hmiss
    exact firstHit_allMiss (fun s => shardGuild s gid) d.sessions hne hmiss
  · intro pre s post g hsess hmiss hs
    show firstHit (fun s => shardGuild s gid) d.sessions = (some g, false)
    rw [hsess]
    exact firstHit_firstSuccess (fun s => shardGuild s gid) g pre s post hmiss hs
  · intro hmiss
    have := firstHit_allMiss (fun s => shardPerms s uid chid) d.sessions hne hmiss
    simp [Discord.UserChannelPermissions, this]
  · intro pre s post p hsess hmiss hs
    have : firstHit (fun s => shardPerms s uid chid) d.sessions = (some p, false) := by
      rw [hsess]
      exact firstHit_firstSuccess (fun s => shardPerms s uid chid) p pre s post hmiss hs
    simp [Discord.UserChannelPermissions, this]

/-- C9 (witness): the aggregator theorem applied at a concrete two-shard
client: channel `ch1` is found on the second shard after the first misses,
and guild `g9` misses on every shard. -/
theorem C9_witness :
    dC9.Channel "ch1" = (some ⟨"ch1", "general", "g1"⟩, false)
      ∧ dC9.Guild "g9" = (none, true) :=
  ⟨(C9_aggregator_lookup dC9 "ch1" "g9" "u" "c" (by decide)).2.1
      [shardC9a] shardC9b [] ⟨"ch1", "general", "g1"⟩ rfl (by decide) (by decide),
    (C9_aggregator_lookup dC9 "ch1" "g9" "u" "c" (by decide)).2.2.1 (by decide)⟩

/-- C10: for a Message whose raw event has no author record, `UserName`,
`UserID` and `UserAvatar` all return the empty string, and nothing is written
to the display-name cache. -/
theorem C10_nil_author (d : Discord) (m : DiscordMessage)
    (h : m.dgoMessage.author = none) :
    m.UserName d = ("", m) ∧ m.UserID = "" ∧ m.UserAvatar = "" := by
  refine ⟨?_, ?_, ?_⟩ <;>
    simp [DiscordMessage.UserName, DiscordMessage.UserID, DiscordMessage.UserAvatar, h]

/-- C10 (witness): the nil-author theorem applied at a concrete delete-event
message without an author. -/
theorem C10_witness :
    msgC10.UserName dC10 = ("", msgC10) ∧ msgC10.UserID = "" ∧ msgC10.UserAvatar = "" :=
  C10_nil_author dC10 msgC10 rfl

end Mutterblack
